import Mathlib

/-!
Shallow embedding of the viewport clustering engine of the
bigpictureback repository: `Database::get_markers_cluster` in
`src/database.rs` together with its HTTP wrapper
`get_markers_cluster` in `src/routes.rs`.

Modelling conventions:
* machine floats (`f64`) are modelled as rationals `ℚ`;
* SQL timestamps are modelled as integers (epoch instants);
* the PostgreSQL store is modelled by executing the built query
  against an explicit table given as a list of rows; `ORDER BY`
  becomes a stable sort of the matching rows, so columns the query
  does not name as sort keys keep the table's physical order
  (PostgreSQL leaves their order unspecified);
* the H3 cell library (`h3ron`, an external crate) is an explicit
  parameter `fromPoint lng lat res : Option ℕ` of the engine;
* fallible store calls return `Except`; the `unwrap` on cell
  assignment is modelled by the engine returning `Option`, `none`
  standing for the panic.
-/

/-- Marker row of the primary cluster query (struct `MarkerClusterInfo`
in `src/database.rs`, filled from the SELECT at `database.rs:1921`). -/
structure MarkerClusterInfo where
  id : Int
  member_id : Int
  latitude : ℚ
  longitude : ℚ
  emotion_tag : String
  description : String
  likes : Int
  dislikes : Int
  views : Int
  author : String
  thumbnail_img : String
  created_at : Int
  updated_at : Int
deriving DecidableEq, Repr

/-- Image row (struct `MarkerImage` in `src/database.rs`). -/
structure MarkerImage where
  id : Int
  marker_id : Int
  image_type : String
  image_url : String
  image_order : Int
  is_primary : Bool
  created_at : Int
  updated_at : Int
deriving DecidableEq, Repr

/-- One marker object of the response (the camel-cased `serde_json`
marker object built inside `get_markers_cluster`, with its attached
`images` array). -/
structure MarkerOut where
  id : Int
  memberId : Int
  latitude : ℚ
  longitude : ℚ
  emotionTag : String
  description : String
  likes : Int
  dislikes : Int
  views : Int
  author : String
  thumbnailImg : String
  createdAt : Int
  updatedAt : Int
  images : List MarkerImage
deriving DecidableEq, Repr

/-- One cluster object of the response. `h3_index` is `none` for the
`"h3_index": null` of ungrouped mode and `some` of the cell id
otherwise. -/
structure ClusterOut where
  h3_index : Option Nat
  lat : ℚ
  lng : ℚ
  count : Nat
  marker_ids : List Int
  markers : List MarkerOut
deriving DecidableEq, Repr

/-- Precision selection from the viewport spans
(`database.rs:1976-1986`). -/
def precision (lat_delta lng_delta : ℚ) : Nat :=
  if lat_delta > 2 ∨ lng_delta > 2 then 3
  else if lat_delta > 1/2 ∨ lng_delta > 1/2 then 4
  else if lat_delta > 1/10 ∨ lng_delta > 1/10 then 5
  else if lat_delta > 3/100 ∨ lng_delta > 3/100 then 8
  else 9

/-- The spec's precision table as written (spec §4.2): a function of the
single larger span. Stated from the spec's words, to be compared with
`precision` as embedded from the code. -/
def specPrecision (span : ℚ) : Nat :=
  if span > 2 then 3
  else if span > 1/2 then 4
  else if span > 1/10 then 5
  else if span > 3/100 then 8
  else 9

/-- ORDER BY clause of the primary cluster query as the query builder
emits it (`database.rs:1944-1946`): the builder appends the constant
string; the `sort_by` and `sort_order` arguments of
`get_markers_cluster` are never read. -/
def clusterOrderBy (sort_by sort_order : Option String) : String :=
  "created_at DESC"

/-- Row order of the primary bounding-box query: the store returns the
matching rows ordered by the built ORDER BY clause (`clusterOrderBy`),
i.e. by `created_at` descending whatever sort the caller asked for;
rows tying on `created_at` keep physical order (stable sort). -/
def markersQueryRows (table : List MarkerClusterInfo)
    (sort_by sort_order : Option String) : List MarkerClusterInfo :=
  table.mergeSort (fun a b => decide (b.created_at ≤ a.created_at))

/-- The per-marker image query of `get_markers_cluster`
(`database.rs:1995-2001` and `database.rs:2082-2088`):
`SELECT ... FROM bigpicture.marker_images WHERE marker_id = $1
ORDER BY image_order ASC`, executed against the `marker_images` table
given in physical row order. The ORDER BY names no tie-break column, so
rows with equal `image_order` come back in unspecified order, modelled
as the table's physical order (stable sort). -/
def listImagesQuery (table : List MarkerImage) (markerId : Int) :
    List MarkerImage :=
  (table.filter (fun img => img.marker_id == markerId)).mergeSort
    (fun a b => decide (a.image_order ≤ b.image_order))

/-- Abstract image-store collaborator: per marker id either the rows the
image query returns, or a store error (`fails` says which fetches
fail). -/
def imageStore (table : List MarkerImage) (fails : Int → Bool)
    (markerId : Int) : Except String (List MarkerImage) :=
  if fails markerId then Except.error "store error"
  else Except.ok (listImagesQuery table markerId)

/-- `fetch_all(db).await.unwrap_or_default()` on the image query
(`database.rs:2006` and `database.rs:2093`): a failed image fetch
degrades to the empty list. -/
def unwrapOrDefault (store : Int → Except String (List MarkerImage))
    (markerId : Int) : List MarkerImage :=
  match store markerId with
  | Except.ok imgs => imgs
  | Except.error _ => []

/-- Builds one response marker object with its enriched image list
(the `serde_json` marker object of `database.rs:2045-2060` and
`database.rs:2140-2155`). -/
def markerOut (fetch : Int → List MarkerImage) (m : MarkerClusterInfo) :
    MarkerOut :=
  { id := m.id, memberId := m.member_id, latitude := m.latitude,
    longitude := m.longitude, emotionTag := m.emotion_tag,
    description := m.description, likes := m.likes,
    dislikes := m.dislikes, views := m.views, author := m.author,
    thumbnailImg := m.thumbnail_img, createdAt := m.created_at,
    updatedAt := m.updated_at, images := fetch m.id }

/-- Ungrouped branch (`database.rs:1988-2061`): every marker becomes its
own singleton cluster with null cell id and count 1. -/
def singletonClusters (fetch : Int → List MarkerImage)
    (markerInfos : List MarkerClusterInfo) : List ClusterOut :=
  markerInfos.map (fun m =>
    { h3_index := none, lat := m.latitude, lng := m.longitude,
      count := 1, marker_ids := [m.id],
      markers := [markerOut fetch m] })

/-- Per-cell aggregation (`database.rs:2119-2166`): member count,
fold-summed centroid divided by the count, the member ids, and the
enriched member objects in the group's insertion order. -/
def buildCluster (fetch : Int → List MarkerImage) (h3idx : Nat)
    (marker_list : List MarkerClusterInfo) : ClusterOut :=
  let count := marker_list.length
  let sums := marker_list.foldl
    (fun acc m => (acc.1 + m.latitude, acc.2 + m.longitude)) ((0 : ℚ), (0 : ℚ))
  { h3_index := some h3idx, lat := sums.1 / (count : ℚ),
    lng := sums.2 / (count : ℚ), count := count,
    marker_ids := marker_list.map (fun m => m.id),
    markers := marker_list.map (markerOut fetch) }

/-- Cell-assignment loop (`database.rs:2063-2068`):
`H3Cell::from_point(Point::new(lng, lat), precision).unwrap()` per
marker. The H3 library is an external crate, so the engine is
parametrised over its point-to-cell function `fromPoint lng lat res`;
`none` models the `unwrap` panic at the first failing marker. -/
def assignCells (fromPoint : ℚ → ℚ → Nat → Option Nat) (res : Nat) :
    List MarkerClusterInfo → Option (List (MarkerClusterInfo × Nat))
  | [] => some []
  | m :: ms =>
    match fromPoint m.longitude m.latitude res,
        assignCells fromPoint res ms with
    | some k, some rest => some ((m, k) :: rest)
    | _, _ => none

/-- Grouped branch output (`database.rs:2113-2168`): one cluster per
distinct cell key of the keyed marker list, each aggregating that key's
markers in insertion order. -/
def groupedClusters (fetch : Int → List MarkerImage)
    (keyed : List (MarkerClusterInfo × Nat)) : List ClusterOut :=
  (keyed.map Prod.snd).dedup.map (fun k =>
    buildCluster fetch k
      ((keyed.filter (fun mk => mk.2 == k)).map Prod.fst))

/-- The clustering engine `Database::get_markers_cluster`
(`database.rs:1900-2169`) after the primary store query has produced
`markerInfos` in the query's row order: precision selection, the
ungrouped-mode early return, hash-grouping by H3 cell id, and the
per-cluster reduction. `fetch` is the per-marker image fetch with its
failure already degraded to `[]` (see `unwrapOrDefault`). The result is
`none` exactly when a cell-id `unwrap` would panic. Cluster order of the
grouped branch comes from `HashMap` iteration and is arbitrary; it is
modelled as first-occurrence order of the cell keys, and each group
holds its members in insertion order exactly as
`clusters.entry(h3idx).or_default().push(marker)` does. -/
def getMarkersCluster (fromPoint : ℚ → ℚ → Nat → Option Nat)
    (fetch : Int → List MarkerImage)
    (markerInfos : List MarkerClusterInfo)
    (lat_delta lng_delta : ℚ) : Option (List ClusterOut) :=
  let p := precision lat_delta lng_delta
  if 9 ≤ p ∨ (lat_delta < 1/100 ∧ lng_delta < 1/100) then
    some (singletonClusters fetch markerInfos)
  else
    match assignCells fromPoint p markerInfos with
    | none => none
    | some keyed => some (groupedClusters fetch keyed)

/-- Response marker object after the route layer added `isMine`. -/
structure MarkerOutMine extends MarkerOut where
  isMine : Bool
deriving DecidableEq, Repr

/-- Response cluster object after the route layer added `isMine` to
every member marker. -/
structure ClusterOutMine where
  h3_index : Option Nat
  lat : ℚ
  lng : ℚ
  count : Nat
  marker_ids : List Int
  markers : List MarkerOutMine
deriving DecidableEq, Repr

/-- The route handler's post-processing (`routes.rs:2960-2987`): with an
authenticated user id every marker gets `isMine = (memberId == uid)`;
with no user id every marker gets `isMine = false`. -/
def addIsMine (user_id : Option Int) (clusters : List ClusterOut) :
    List ClusterOutMine :=
  match user_id with
  | some uid => clusters.map (fun c =>
      { h3_index := c.h3_index, lat := c.lat, lng := c.lng,
        count := c.count, marker_ids := c.marker_ids,
        markers := c.markers.map (fun m =>
          { toMarkerOut := m, isMine := m.memberId == uid }) })
  | none => clusters.map (fun c =>
      { h3_index := c.h3_index, lat := c.lat, lng := c.lng,
        count := c.count, marker_ids := c.marker_ids,
        markers := c.markers.map (fun m =>
          { toMarkerOut := m, isMine := false }) })

/-- Arithmetic mean of the members' latitudes, stated from the spec's
words ("centroid = (mean latitude, mean longitude) over members"). -/
def meanLat (l : List MarkerClusterInfo) : ℚ :=
  (l.map (fun m => m.latitude)).sum / (l.length : ℚ)

/-- Arithmetic mean of the members' longitudes, stated from the spec's
words. -/
def meanLng (l : List MarkerClusterInfo) : ℚ :=
  (l.map (fun m => m.longitude)).sum / (l.length : ℚ)

/-- Concrete marker row for instantiating theorems; fields not under
test are defaulted. -/
def mkMarker (id member_id : Int) (latitude longitude : ℚ)
    (likes created_at : Int) : MarkerClusterInfo :=
  { id := id, member_id := member_id, latitude := latitude,
    longitude := longitude, emotion_tag := "", description := "",
    likes := likes, dislikes := 0, views := 0, author := "",
    thumbnail_img := "", created_at := created_at, updated_at := 0 }

/-- Concrete image row for instantiating theorems. -/
def mkImage (id marker_id image_order created_at : Int) : MarkerImage :=
  { id := id, marker_id := marker_id, image_type := "", image_url := "",
    image_order := image_order, is_primary := false,
    created_at := created_at, updated_at := 0 }

/-- The spec's synthetic centroid cluster: markers at (0,0), (0,2),
(2,0), (2,2). -/
def squareMarkers : List MarkerClusterInfo :=
  [mkMarker 1 0 0 0 0 0, mkMarker 2 0 0 2 0 0,
   mkMarker 3 0 2 0 0 0, mkMarker 4 0 2 2 0 0]

/-- Newer marker (created 2) with 5 likes. -/
def cexMarkerA : MarkerClusterInfo := mkMarker 1 10 0 0 5 2

/-- Older marker (created 1) with 3 likes. -/
def cexMarkerB : MarkerClusterInfo := mkMarker 2 11 0 0 3 1

/-- Single marker at the origin. -/
def cexMarkerM : MarkerClusterInfo := mkMarker 1 10 0 0 0 0

/-- Image with order 1 created at time 5, physically first in the
table. -/
def cexImgX : MarkerImage := mkImage 101 1 1 5

/-- Image with order 1 created at time 3, physically second in the
table. -/
def cexImgY : MarkerImage := mkImage 102 1 1 3

/-- Trivially valid cell scheme (every point maps to cell 0 at every
resolution): used to instantiate the abstract H3 parameter in
witnesses. -/
def constCell : ℚ → ℚ → Nat → Option Nat := fun _ _ _ => some 0

/-- Image fetch returning no images. -/
def noImages : Int → List MarkerImage := fun _ => []

/-- Concrete response cluster holding the one marker `cexMarkerM`. -/
def cexClusterOut : ClusterOut :=
  { h3_index := none, lat := 0, lng := 0, count := 1, marker_ids := [1],
    markers := [markerOut noImages cexMarkerM] }

/-! ## Helper lemmas -/

lemma foldl_coord_sum (l : List MarkerClusterInfo) (a b : ℚ) :
    l.foldl (fun acc m => (acc.1 + m.latitude, acc.2 + m.longitude)) (a, b)
      = (a + (l.map (fun m => m.latitude)).sum,
         b + (l.map (fun m => m.longitude)).sum) := by
  induction l generalizing a b with
  | nil => simp
  | cons m ms ih => simp [List.foldl_cons, ih, add_assoc]

lemma precision_eq_spec (d1 d2 : ℚ) :
    precision d1 d2 = specPrecision (max d1 d2) := by
  unfold precision specPrecision
  simp only [gt_iff_lt, lt_max_iff]

lemma specPrecision_antitone {s t : ℚ} (h : s ≤ t) :
    specPrecision t ≤ specPrecision s := by
  unfold specPrecision
  split_ifs <;> linarith

lemma precision_mem (d1 d2 : ℚ) :
    precision d1 d2 ∈ ([3, 4, 5, 8, 9] : List Nat) := by
  unfold precision
  split_ifs <;> simp

lemma precision_le_nine (d1 d2 : ℚ) : precision d1 d2 ≤ 9 := by
  unfold precision
  split_ifs <;> norm_num

lemma precision_eq_nine_iff (d1 d2 : ℚ) :
    precision d1 d2 = 9 ↔ d1 ≤ 3/100 ∧ d2 ≤ 3/100 := by
  unfold precision
  split_ifs with h1 h2 h3 h4
  · exact iff_of_false (by norm_num)
      (fun hc => by rcases h1 with h | h <;> linarith [hc.1, hc.2])
  · exact iff_of_false (by norm_num)
      (fun hc => by rcases h2 with h | h <;> linarith [hc.1, hc.2])
  · exact iff_of_false (by norm_num)
      (fun hc => by rcases h3 with h | h <;> linarith [hc.1, hc.2])
  · exact iff_of_false (by norm_num)
      (fun hc => by rcases h4 with h | h <;> linarith [hc.1, hc.2])
  · push_neg at h4
    exact iff_of_true rfl ⟨h4.1, h4.2⟩

lemma assignCells_map_fst (fromPoint : ℚ → ℚ → Nat → Option Nat)
    (res : Nat) :
    ∀ {ms : List MarkerClusterInfo} {keyed},
      assignCells fromPoint res ms = some keyed →
        keyed.map Prod.fst = ms := by
  intro ms
  induction ms with
  | nil =>
    intro keyed h
    simp only [assignCells, Option.some.injEq] at h
    subst h; rfl
  | cons m ms ih =>
    intro keyed h
    simp only [assignCells] at h
    cases hf : fromPoint m.longitude m.latitude res with
    | none => rw [hf] at h; simp at h
    | some k =>
      rw [hf] at h
      cases hr : assignCells fromPoint res ms with
      | none => rw [hr] at h; simp at h
      | some rest =>
        rw [hr] at h
        simp only [Option.some.injEq] at h
        subst h
        simp [ih hr]

lemma assignCells_isSome (fromPoint : ℚ → ℚ → Nat → Option Nat)
    (res : Nat) :
    ∀ {ms : List MarkerClusterInfo},
      (∀ m ∈ ms, (fromPoint m.longitude m.latitude res).isSome) →
        (assignCells fromPoint res ms).isSome := by
  intro ms
  induction ms with
  | nil => intro _; simp [assignCells]
  | cons m ms ih =>
    intro H
    have hm := H m (by simp)
    have hms := ih (fun x hx => H x (by simp [hx]))
    simp only [assignCells]
    cases hf : fromPoint m.longitude m.latitude res with
    | none => rw [hf] at hm; simp at hm
    | some k =>
      cases hr : assignCells fromPoint res ms with
      | none => rw [hr] at hms; simp at hms
      | some rest => simp

lemma assignCells_map_res (fromPoint : ℚ → ℚ → Nat → Option Nat)
    {r r' : Nat} (f : Nat → Nat)
    (hf : ∀ lng lat c, fromPoint lng lat r = some c →
      fromPoint lng lat r' = some (f c)) :
    ∀ {ms : List MarkerClusterInfo} {keyed},
      assignCells fromPoint r ms = some keyed →
        assignCells fromPoint r' ms
          = some (keyed.map (fun mk => (mk.1, f mk.2))) := by
  intro ms
  induction ms with
  | nil =>
    intro keyed h
    simp only [assignCells, Option.some.injEq] at h
    subst h; rfl
  | cons m ms ih =>
    intro keyed h
    simp only [assignCells] at h ⊢
    cases hc : fromPoint m.longitude m.latitude r with
    | none => rw [hc] at h; simp at h
    | some k =>
      rw [hc] at h
      cases hr : assignCells fromPoint r ms with
      | none => rw [hr] at h; simp at h
      | some rest =>
        rw [hr] at h
        simp only [Option.some.injEq] at h
        subst h
        rw [hf m.longitude m.latitude k hc, ih hr]
        simp

lemma flatMap_filter_perm {α K : Type} [DecidableEq K] (key : α → K) :
    ∀ (ks : List K) (l : List α), ks.Nodup → (∀ a ∈ l, key a ∈ ks) →
      (ks.flatMap (fun k => l.filter (fun a => key a == k))).Perm l := by
  intro ks
  induction ks with
  | nil =>
    intro l _ hc
    have hl : l = [] := by
      cases l with
      | nil => rfl
      | cons a l => exact absurd (hc a (by simp)) (by simp)
    subst hl; simp
  | cons k ks ih =>
    intro l hn hc
    rw [List.flatMap_cons]
    have hks : ks.map (fun k' => l.filter (fun a => key a == k'))
        = ks.map (fun k' =>
            (l.filter (fun a => !(key a == k))).filter
              (fun a => key a == k')) := by
      apply List.map_congr_left
      intro k' hk'
      rw [List.filter_filter]
      apply List.filter_congr
      intro a _
      by_cases h : key a = k'
      · have hne : k' ≠ k := by
          rintro rfl
          exact (List.nodup_cons.mp hn).1 hk'
        simp [h, hne]
      · simp [h]
    have hrest : (ks.flatMap (fun k' => l.filter (fun a => key a == k'))).Perm
        (l.filter (fun a => !(key a == k))) := by
      rw [List.flatMap, hks, ← List.flatMap]
      apply ih
      · exact (List.nodup_cons.mp hn).2
      · intro a ha
        have := hc a (List.mem_of_mem_filter ha)
        have hna : ¬(key a == k) = true := by
          have := List.of_mem_filter ha
          simpa using this
        simp only [List.mem_cons] at this
        rcases this with h | h
        · exact absurd (by simp [h]) hna
        · exact h
    exact (hrest.append_left (l.filter (fun a => key a == k))).trans
      (List.filter_append_perm (fun a => key a == k) l)

lemma toFinset_map_image {α β : Type} [DecidableEq α] [DecidableEq β]
    (f : α → β) (l : List α) :
    (l.map f).toFinset = l.toFinset.image f := by
  ext x; simp

lemma dedup_length_map_le {α β : Type} [DecidableEq α] [DecidableEq β]
    (f : α → β) (l : List α) :
    ((l.map f).dedup).length ≤ l.dedup.length := by
  rw [← List.card_toFinset, ← List.card_toFinset, toFinset_map_image]
  exact Finset.card_image_le

lemma flatMap_congr {α β : Type} {l : List α} {f g : α → List β}
    (h : ∀ a ∈ l, f a = g a) : l.flatMap f = l.flatMap g := by
  induction l with
  | nil => rfl
  | cons a t ih =>
    simp only [List.flatMap_cons, h a (by simp),
      ih (fun x hx => h x (by simp [hx]))]

lemma flatMap_single {α β : Type} (f : α → β) (l : List α) :
    l.flatMap (fun a => [f a]) = l.map f := by
  induction l with
  | nil => rfl
  | cons a t ih => simp [List.flatMap_cons, ih]

lemma engine_ungrouped_eq (fp : ℚ → ℚ → Nat → Option Nat)
    (fetch : Int → List MarkerImage) (ms : List MarkerClusterInfo)
    (d1 d2 : ℚ)
    (h : 9 ≤ precision d1 d2 ∨ (d1 < 1/100 ∧ d2 < 1/100)) :
    getMarkersCluster fp fetch ms d1 d2
      = some (singletonClusters fetch ms) := by
  simp only [getMarkersCluster]
  rw [if_pos h]

lemma engine_grouped_eq (fp : ℚ → ℚ → Nat → Option Nat)
    (fetch : Int → List MarkerImage) (ms : List MarkerClusterInfo)
    (d1 d2 : ℚ) (keyed : List (MarkerClusterInfo × Nat))
    (h : ¬(9 ≤ precision d1 d2 ∨ (d1 < 1/100 ∧ d2 < 1/100)))
    (hk : assignCells fp (precision d1 d2) ms = some keyed) :
    getMarkersCluster fp fetch ms d1 d2
      = some (groupedClusters fetch keyed) := by
  simp only [getMarkersCluster]
  rw [if_neg h, hk]

lemma engine_cases (fp : ℚ → ℚ → Nat → Option Nat)
    (fetch : Int → List MarkerImage) (ms : List MarkerClusterInfo)
    (d1 d2 : ℚ) (out : List ClusterOut)
    (hout : getMarkersCluster fp fetch ms d1 d2 = some out) :
    ((9 ≤ precision d1 d2 ∨ (d1 < 1/100 ∧ d2 < 1/100))
        ∧ out = singletonClusters fetch ms)
    ∨ (∃ keyed, ¬(9 ≤ precision d1 d2 ∨ (d1 < 1/100 ∧ d2 < 1/100))
        ∧ assignCells fp (precision d1 d2) ms = some keyed
        ∧ out = groupedClusters fetch keyed) := by
  by_cases h : 9 ≤ precision d1 d2 ∨ (d1 < 1/100 ∧ d2 < 1/100)
  · left
    refine ⟨h, ?_⟩
    have he := engine_ungrouped_eq fp fetch ms d1 d2 h
    rw [hout] at he
    exact Option.some.inj he
  · right
    cases hk : assignCells fp (precision d1 d2) ms with
    | none =>
      simp only [getMarkersCluster] at hout
      rw [if_neg h, hk] at hout
      exact absurd hout (by simp)
    | some keyed =>
      refine ⟨keyed, h, rfl, ?_⟩
      have he := engine_grouped_eq fp fetch ms d1 d2 keyed h hk
      rw [hout] at he
      exact Option.some.inj he

lemma singletonClusters_ids (fetch : Int → List MarkerImage) :
    ∀ l : List MarkerClusterInfo,
      (singletonClusters fetch l).flatMap (fun c => c.marker_ids)
        = l.map (fun m => m.id) := by
  intro l
  induction l with
  | nil => rfl
  | cons a t iht => simpa [singletonClusters] using iht

lemma engine_ids_perm (fp : ℚ → ℚ → Nat → Option Nat)
    (fetch : Int → List MarkerImage) (ms : List MarkerClusterInfo)
    (d1 d2 : ℚ) (out : List ClusterOut)
    (hout : getMarkersCluster fp fetch ms d1 d2 = some out) :
    (out.flatMap (fun c => c.marker_ids)).Perm
      (ms.map (fun m => m.id)) := by
  rcases engine_cases fp fetch ms d1 d2 out hout with
    ⟨h, rfl⟩ | ⟨keyed, h, hk, rfl⟩
  · rw [singletonClusters_ids fetch ms]
  · have hmsk : keyed.map Prod.fst = ms := assignCells_map_fst fp _ hk
    have hcover : ∀ mk ∈ keyed, Prod.snd mk ∈ (keyed.map Prod.snd).dedup := by
      intro mk hmk
      rw [List.mem_dedup]
      exact List.mem_map_of_mem Prod.snd hmk
    have hperm := flatMap_filter_perm Prod.snd (keyed.map Prod.snd).dedup
      keyed (List.nodup_dedup _) hcover
    have h2 := hperm.map (fun mk : MarkerClusterInfo × Nat => mk.1.id)
    have h3 : keyed.map (fun mk : MarkerClusterInfo × Nat => mk.1.id)
        = ms.map (fun m => m.id) := by
      rw [← hmsk, List.map_map]
      rfl
    rw [h3] at h2
    have h4 : (groupedClusters fetch keyed).flatMap (fun c => c.marker_ids)
        = ((keyed.map Prod.snd).dedup.flatMap
            (fun k => keyed.filter (fun mk => mk.2 == k))).map
            (fun mk => mk.1.id) := by
      simp only [groupedClusters]
      rw [List.flatMap_map, List.map_flatMap]
      apply flatMap_congr
      intro k _
      show ((keyed.filter (fun mk => mk.2 == k)).map Prod.fst).map
          (fun m => m.id) = _
      rw [List.map_map]
      rfl
    rw [h4]
    exact h2

lemma engine_isSome_fetch (fp : ℚ → ℚ → Nat → Option Nat)
    (fetch fetch' : Int → List MarkerImage)
    (ms : List MarkerClusterInfo) (d1 d2 : ℚ) :
    (getMarkersCluster fp fetch ms d1 d2).isSome
      = (getMarkersCluster fp fetch' ms d1 d2).isSome := by
  simp only [getMarkersCluster]
  by_cases h : 9 ≤ precision d1 d2 ∨ (d1 < 1/100 ∧ d2 < 1/100)
  · rw [if_pos h, if_pos h]
    rfl
  · rw [if_neg h, if_neg h]
    cases assignCells fp (precision d1 d2) ms <;> rfl

lemma engine_markers_shape (fp : ℚ → ℚ → Nat → Option Nat)
    (fetch : Int → List MarkerImage) (ms : List MarkerClusterInfo)
    (d1 d2 : ℚ) (out : List ClusterOut)
    (hout : getMarkersCluster fp fetch ms d1 d2 = some out) :
    ∀ c ∈ out, ∀ mo ∈ c.markers, ∃ m ∈ ms, mo = markerOut fetch m := by
  rcases engine_cases fp fetch ms d1 d2 out hout with
    ⟨h, rfl⟩ | ⟨keyed, h, hk, rfl⟩
  · intro c hc mo hmo
    simp only [singletonClusters, List.mem_map] at hc
    obtain ⟨m, hm, rfl⟩ := hc
    simp only [List.mem_singleton] at hmo
    exact ⟨m, hm, hmo⟩
  · intro c hc mo hmo
    simp only [groupedClusters, List.mem_map] at hc
    obtain ⟨k, hkmem, rfl⟩ := hc
    have hmo' : mo ∈ ((keyed.filter (fun mk => mk.2 == k)).map
        Prod.fst).map (markerOut fetch) := hmo
    rw [List.map_map] at hmo'
    obtain ⟨mk, hmk, rfl⟩ := List.mem_map.mp hmo'
    refine ⟨mk.1, ?_, rfl⟩
    rw [← assignCells_map_fst fp _ hk]
    exact List.mem_map_of_mem Prod.fst (List.mem_of_mem_filter hmk)

lemma engine_cluster_pairwise
    (R : MarkerClusterInfo → MarkerClusterInfo → Prop)
    (S : MarkerOut → MarkerOut → Prop)
    (fetch : Int → List MarkerImage)
    (hRS : ∀ a b, R a b → S (markerOut fetch a) (markerOut fetch b))
    (fp : ℚ → ℚ → Nat → Option Nat) (ms : List MarkerClusterInfo)
    (d1 d2 : ℚ) (out : List ClusterOut)
    (hms : ms.Pairwise R)
    (hout : getMarkersCluster fp fetch ms d1 d2 = some out) :
    ∀ c ∈ out, c.markers.Pairwise S := by
  rcases engine_cases fp fetch ms d1 d2 out hout with
    ⟨h, rfl⟩ | ⟨keyed, h, hk, rfl⟩
  · intro c hc
    simp only [singletonClusters, List.mem_map] at hc
    obtain ⟨m, hm, rfl⟩ := hc
    simp
  · intro c hc
    simp only [groupedClusters, List.mem_map] at hc
    obtain ⟨k, hkmem, rfl⟩ := hc
    show (((keyed.filter (fun mk => mk.2 == k)).map Prod.fst).map
        (markerOut fetch)).Pairwise S
    have hkey : keyed.Pairwise (fun a b => R a.1 b.1) := by
      have hmsk : keyed.map Prod.fst = ms := assignCells_map_fst fp _ hk
      rw [← hmsk] at hms
      exact List.pairwise_map.mp hms
    have hfil : (keyed.filter (fun mk => mk.2 == k)).Pairwise
        (fun a b => R a.1 b.1) :=
      List.Pairwise.sublist (List.filter_sublist keyed) hkey
    rw [List.map_map, List.pairwise_map]
    exact hfil.imp (fun hab => hRS _ _ hab)

lemma markersQueryRows_sorted (table : List MarkerClusterInfo)
    (sb so : Option String) :
    (markersQueryRows table sb so).Pairwise
      (fun a b : MarkerClusterInfo => b.created_at ≤ a.created_at) := by
  have h := @List.sorted_mergeSort MarkerClusterInfo
    (fun a b => decide (b.created_at ≤ a.created_at))
    (fun a b c hab hbc => by
      simp only [decide_eq_true_eq] at hab hbc ⊢
      exact le_trans hbc hab)
    (fun a b => by
      simp only [Bool.or_eq_true, decide_eq_true_eq]
      exact le_total b.created_at a.created_at)
    table
  exact h.imp (fun hab => by simpa using hab)

lemma listImagesQuery_sorted (table : List MarkerImage) (mid : Int) :
    (listImagesQuery table mid).Pairwise
      (fun a b : MarkerImage => a.image_order ≤ b.image_order) := by
  have h := @List.sorted_mergeSort MarkerImage
    (fun a b => decide (a.image_order ≤ b.image_order))
    (fun a b c hab hbc => by
      simp only [decide_eq_true_eq] at hab hbc ⊢
      exact le_trans hab hbc)
    (fun a b => by
      simp only [Bool.or_eq_true, decide_eq_true_eq]
      exact le_total a.image_order b.image_order)
    (table.filter (fun img => img.marker_id == mid))
  exact h.imp (fun hab => by simpa using hab)

lemma listImagesQuery_nil (table : List MarkerImage) (mid : Int)
    (h : ∀ img ∈ table, img.marker_id ≠ mid) :
    listImagesQuery table mid = [] := by
  unfold listImagesQuery
  have hf : table.filter (fun img => img.marker_id == mid) = [] :=
    List.filter_eq_nil_iff.mpr (by intro a ha; simpa using h a ha)
  rw [hf, List.mergeSort_nil]

lemma unwrap_imageStore_fails (table : List MarkerImage)
    (fails : Int → Bool) (mid : Int) (h : fails mid = true) :
    unwrapOrDefault (imageStore table fails) mid = [] := by
  simp [unwrapOrDefault, imageStore, h]

lemma unwrap_imageStore_ok (table : List MarkerImage)
    (fails : Int → Bool) (mid : Int) (h : fails mid = false) :
    unwrapOrDefault (imageStore table fails) mid
      = listImagesQuery table mid := by
  simp [unwrapOrDefault, imageStore, h]

lemma ungrouped_cond_antitone {d1 d2 d1' d2' : ℚ}
    (h1 : d1 ≤ d1') (h2 : d2 ≤ d2')
    (h : 9 ≤ precision d1' d2' ∨ (d1' < 1/100 ∧ d2' < 1/100)) :
    9 ≤ precision d1 d2 ∨ (d1 < 1/100 ∧ d2 < 1/100) := by
  rcases h with h | h
  · left
    have h9' : precision d1' d2' = 9 :=
      le_antisymm (precision_le_nine _ _) h
    have hb := (precision_eq_nine_iff d1' d2').mp h9'
    have h9 : precision d1 d2 = 9 :=
      (precision_eq_nine_iff d1 d2).mpr
        ⟨le_trans h1 hb.1, le_trans h2 hb.2⟩
    rw [h9]
  · exact Or.inr ⟨lt_of_le_of_lt h1 h.1, lt_of_le_of_lt h2 h.2⟩

lemma singletonClusters_length (fetch : Int → List MarkerImage)
    (ms : List MarkerClusterInfo) :
    (singletonClusters fetch ms).length = ms.length := by
  simp [singletonClusters]

lemma groupedClusters_length (fetch : Int → List MarkerImage)
    (keyed : List (MarkerClusterInfo × Nat)) :
    (groupedClusters fetch keyed).length
      = ((keyed.map Prod.snd).dedup).length := by
  simp [groupedClusters]

lemma assignCells_length (fp : ℚ → ℚ → Nat → Option Nat) (res : Nat)
    {ms : List MarkerClusterInfo} {keyed : List (MarkerClusterInfo × Nat)}
    (hk : assignCells fp res ms = some keyed) :
    keyed.length = ms.length := by
  rw [← assignCells_map_fst fp res hk, List.length_map]

/-! ## Claims -/

/-- C2: the precision selector is a pure function of the two viewport
spans before buffering, equal to the spec's threshold table applied to
the larger of `lat_delta` and `lng_delta`: 3 above 2.0, 4 above 0.5,
5 above 0.1, 8 above 0.03, and 9 otherwise. -/
theorem C2_precision_selector (lat_delta lng_delta : ℚ) :
    precision lat_delta lng_delta
      = specPrecision (max lat_delta lng_delta) :=
  precision_eq_spec lat_delta lng_delta

/-- C5: every cluster built by the grouped-mode reducer reports the
unweighted arithmetic mean of its members' latitudes and longitudes as
its centroid; in particular the synthetic cluster over (0,0), (0,2),
(2,0), (2,2) has centroid exactly (1,1). -/
theorem C5_centroid (fetch : Int → List MarkerImage) (h3idx : Nat)
    (l : List MarkerClusterInfo) (hl : l ≠ []) :
    ((buildCluster fetch h3idx l).lat = meanLat l
      ∧ (buildCluster fetch h3idx l).lng = meanLng l)
    ∧ ((buildCluster fetch h3idx squareMarkers).lat = 1
      ∧ (buildCluster fetch h3idx squareMarkers).lng = 1) := by
  have hgen : ∀ t : List MarkerClusterInfo,
      (buildCluster fetch h3idx t).lat = meanLat t
        ∧ (buildCluster fetch h3idx t).lng = meanLng t := by
    intro t
    constructor
    · show (t.foldl
          (fun acc m => (acc.1 + m.latitude, acc.2 + m.longitude))
          ((0 : ℚ), (0 : ℚ))).1 / (t.length : ℚ) = meanLat t
      rw [foldl_coord_sum]
      simp [meanLat]
    · show (t.foldl
          (fun acc m => (acc.1 + m.latitude, acc.2 + m.longitude))
          ((0 : ℚ), (0 : ℚ))).2 / (t.length : ℚ) = meanLng t
      rw [foldl_coord_sum]
      simp [meanLng]
  refine ⟨hgen l, ?_, ?_⟩
  · rw [(hgen squareMarkers).1]
    norm_num [meanLat, squareMarkers, mkMarker]
  · rw [(hgen squareMarkers).2]
    norm_num [meanLng, squareMarkers, mkMarker]

/-- C5 witness: the general statement applied to the concrete square
cluster itself. -/
theorem C5_centroid_witness :
    ((buildCluster noImages 0 squareMarkers).lat = meanLat squareMarkers
      ∧ (buildCluster noImages 0 squareMarkers).lng
          = meanLng squareMarkers)
    ∧ ((buildCluster noImages 0 squareMarkers).lat = 1
      ∧ (buildCluster noImages 0 squareMarkers).lng = 1) :=
  C5_centroid noImages 0 squareMarkers (by simp [squareMarkers])

/-- C3: ungrouped mode triggers exactly when the selected resolution is
at least 9 or both spans are below 0.01; there the engine returns every
store marker as its own singleton cluster with count 1 and null cell
id, skipping cell-hash grouping (every grouped-branch cluster carries a
non-null cell id); in particular when both spans are below 0.01 every
returned cluster has count 1. -/
theorem C3_ungrouped_mode (fp : ℚ → ℚ → Nat → Option Nat)
    (fetch : Int → List MarkerImage) (ms : List MarkerClusterInfo)
    (d1 d2 : ℚ) :
    (9 ≤ precision d1 d2 ∨ (d1 < 1/100 ∧ d2 < 1/100) →
      getMarkersCluster fp fetch ms d1 d2
          = some (singletonClusters fetch ms)
        ∧ ∀ c ∈ singletonClusters fetch ms,
            c.count = 1 ∧ c.h3_index = none)
    ∧ (¬(9 ≤ precision d1 d2 ∨ (d1 < 1/100 ∧ d2 < 1/100)) →
      ∀ out, getMarkersCluster fp fetch ms d1 d2 = some out →
        ∀ c ∈ out, c.h3_index ≠ none)
    ∧ (d1 < 1/100 → d2 < 1/100 →
      ∀ out, getMarkersCluster fp fetch ms d1 d2 = some out →
        ∀ c ∈ out, c.count = 1) := by
  refine ⟨?_, ?_, ?_⟩
  · intro h
    refine ⟨engine_ungrouped_eq fp fetch ms d1 d2 h, ?_⟩
    intro c hc
    simp only [singletonClusters, List.mem_map] at hc
    obtain ⟨m, hm, rfl⟩ := hc
    exact ⟨rfl, rfl⟩
  · intro h out hout c hc
    rcases engine_cases fp fetch ms d1 d2 out hout with
      ⟨h', _⟩ | ⟨keyed, h', hk, rfl⟩
    · exact absurd h' h
    · simp only [groupedClusters, List.mem_map] at hc
      obtain ⟨k, hkm, rfl⟩ := hc
      simp [buildCluster]
  · intro hd1 hd2 out hout c hc
    rw [engine_ungrouped_eq fp fetch ms d1 d2 (Or.inr ⟨hd1, hd2⟩)]
      at hout
    have hse : singletonClusters fetch ms = out := Option.some.inj hout
    rw [← hse] at hc
    simp only [singletonClusters, List.mem_map] at hc
    obtain ⟨m, hm, rfl⟩ := hc
    rfl

/-- C3 witness: a 0.005-degree viewport takes the ungrouped branch for
one concrete marker. -/
theorem C3_witness :
    getMarkersCluster constCell noImages [cexMarkerM] (1/200) (1/200)
        = some (singletonClusters noImages [cexMarkerM])
      ∧ ∀ c ∈ singletonClusters noImages [cexMarkerM],
          c.count = 1 ∧ c.h3_index = none :=
  (C3_ungrouped_mode constCell noImages [cexMarkerM]
    (1/200) (1/200)).1 (Or.inr ⟨by norm_num, by norm_num⟩)

/-- C1: partition property — when the store's ids are distinct, the ids
across all returned clusters are a permutation of the ids the primary
bounding-box query returned: the id sets are equal and no id occurs
twice, neither inside one cluster nor across two clusters. -/
theorem C1_partition (fp : ℚ → ℚ → Nat → Option Nat)
    (fetch : Int → List MarkerImage) (ms : List MarkerClusterInfo)
    (d1 d2 : ℚ) (out : List ClusterOut)
    (hids : (ms.map (fun m => m.id)).Nodup)
    (hout : getMarkersCluster fp fetch ms d1 d2 = some out) :
    (out.flatMap (fun c => c.marker_ids)).Perm
        (ms.map (fun m => m.id))
    ∧ (out.flatMap (fun c => c.marker_ids)).toFinset
        = (ms.map (fun m => m.id)).toFinset
    ∧ (out.flatMap (fun c => c.marker_ids)).Nodup := by
  have hperm := engine_ids_perm fp fetch ms d1 d2 out hout
  exact ⟨hperm, List.toFinset_eq_of_perm _ _ hperm,
    hperm.symm.nodup hids⟩

/-- C1 witness: the partition property at a concrete one-marker
request. -/
theorem C1_witness :
    ((singletonClusters noImages [cexMarkerM]).flatMap
        (fun c => c.marker_ids)).Perm
      ([cexMarkerM].map (fun m => m.id))
    ∧ ((singletonClusters noImages [cexMarkerM]).flatMap
        (fun c => c.marker_ids)).toFinset
      = ([cexMarkerM].map (fun m => m.id)).toFinset
    ∧ ((singletonClusters noImages [cexMarkerM]).flatMap
        (fun c => c.marker_ids)).Nodup :=
  C1_partition constCell noImages [cexMarkerM] (1/200) (1/200)
    (singletonClusters noImages [cexMarkerM])
    (by simp)
    (engine_ungrouped_eq constCell noImages [cexMarkerM]
      (1/200) (1/200) (Or.inr ⟨by norm_num, by norm_num⟩))

/-- C8: after the route layer's post-processing, a marker's `isMine` is
true iff its owner id equals the authenticated requesting user's id;
with no user id present, `isMine` is false on every returned marker. -/
theorem C8_is_mine_flag (clusters : List ClusterOut) (uid : Int) :
    (∀ c ∈ addIsMine (some uid) clusters, ∀ m ∈ c.markers,
      (m.isMine = true ↔ m.memberId = uid))
    ∧ (∀ c ∈ addIsMine none clusters, ∀ m ∈ c.markers,
      m.isMine = false) := by
  constructor
  · intro c hc m hm
    simp only [addIsMine, List.mem_map] at hc
    obtain ⟨c0, hc0, rfl⟩ := hc
    simp only [List.mem_map] at hm
    obtain ⟨m0, hm0, rfl⟩ := hm
    simp
  · intro c hc m hm
    simp only [addIsMine, List.mem_map] at hc
    obtain ⟨c0, hc0, rfl⟩ := hc
    simp only [List.mem_map] at hm
    obtain ⟨m0, hm0, rfl⟩ := hm
    rfl

/-- C8 witness: a marker owned by member 10 in a response processed for
user 10, via the theorem. -/
theorem C8_witness :
    (({ toMarkerOut := markerOut noImages cexMarkerM,
        isMine := ((markerOut noImages cexMarkerM).memberId == 10) } :
          MarkerOutMine).isMine = true)
      ↔ ({ toMarkerOut := markerOut noImages cexMarkerM,
           isMine := ((markerOut noImages cexMarkerM).memberId == 10) } :
          MarkerOutMine).memberId = 10 := by
  refine (C8_is_mine_flag [cexClusterOut] 10).1 _
    (List.mem_map_of_mem _ (List.mem_singleton.mpr rfl)) _ ?_
  exact List.mem_singleton.mpr rfl

/-- C6: a failed per-marker image fetch degrades to an empty images
list while the request still succeeds with every marker present — the
request-level outcome never depends on the image fetch — and a marker
with no image rows gets an empty list, not an error. -/
theorem C6_image_failure (fp : ℚ → ℚ → Nat → Option Nat)
    (table : List MarkerImage) (fails : Int → Bool)
    (ms : List MarkerClusterInfo) (d1 d2 : ℚ) (out : List ClusterOut)
    (hout : getMarkersCluster fp
        (unwrapOrDefault (imageStore table fails)) ms d1 d2
      = some out) :
    (∀ c ∈ out, ∀ mo ∈ c.markers,
        fails mo.id = true → mo.images = [])
    ∧ (∀ c ∈ out, ∀ mo ∈ c.markers,
        (∀ img ∈ table, img.marker_id ≠ mo.id) → mo.images = [])
    ∧ (out.flatMap (fun c => c.marker_ids)).Perm
        (ms.map (fun m => m.id))
    ∧ (∀ fetch fetch' : Int → List MarkerImage,
        (getMarkersCluster fp fetch ms d1 d2).isSome
          = (getMarkersCluster fp fetch' ms d1 d2).isSome) := by
  have hshape := engine_markers_shape fp
    (unwrapOrDefault (imageStore table fails)) ms d1 d2 out hout
  refine ⟨?_, ?_,
    engine_ids_perm fp (unwrapOrDefault (imageStore table fails))
      ms d1 d2 out hout,
    fun f f' => engine_isSome_fetch fp f f' ms d1 d2⟩
  · intro c hc mo hmo hfail
    obtain ⟨m, hm, rfl⟩ := hshape c hc mo hmo
    show unwrapOrDefault (imageStore table fails) m.id = []
    exact unwrap_imageStore_fails table fails m.id hfail
  · intro c hc mo hmo hnone
    obtain ⟨m, hm, rfl⟩ := hshape c hc mo hmo
    show unwrapOrDefault (imageStore table fails) m.id = []
    cases hfm : fails m.id with
    | true => exact unwrap_imageStore_fails table fails m.id hfm
    | false =>
      rw [unwrap_imageStore_ok table fails m.id hfm]
      exact listImagesQuery_nil table m.id
        (fun img hi => hnone img hi)

/-- C6 witness: every image fetch failing for a one-marker request. -/
theorem C6_witness :
    (∀ c ∈ singletonClusters
        (unwrapOrDefault (imageStore [] (fun _ => true))) [cexMarkerM],
      ∀ mo ∈ c.markers, (fun _ : Int => true) mo.id = true →
        mo.images = [])
    ∧ (∀ c ∈ singletonClusters
        (unwrapOrDefault (imageStore [] (fun _ => true))) [cexMarkerM],
      ∀ mo ∈ c.markers,
        (∀ img ∈ ([] : List MarkerImage), img.marker_id ≠ mo.id) →
          mo.images = [])
    ∧ (((singletonClusters
        (unwrapOrDefault (imageStore [] (fun _ => true)))
        [cexMarkerM]).flatMap (fun c => c.marker_ids)).Perm
        ([cexMarkerM].map (fun m => m.id)))
    ∧ (∀ fetch fetch' : Int → List MarkerImage,
        (getMarkersCluster constCell fetch [cexMarkerM]
            (1/200) (1/200)).isSome
          = (getMarkersCluster constCell fetch' [cexMarkerM]
            (1/200) (1/200)).isSome) :=
  C6_image_failure constCell [] (fun _ => true) [cexMarkerM]
    (1/200) (1/200)
    (singletonClusters
      (unwrapOrDefault (imageStore [] (fun _ => true))) [cexMarkerM])
    (engine_ungrouped_eq constCell
      (unwrapOrDefault (imageStore [] (fun _ => true))) [cexMarkerM]
      (1/200) (1/200) (Or.inr ⟨by norm_num, by norm_num⟩))

/-- C7 (amended): within every returned marker the images are ordered
ascending by `image_order`; the relative order of images with equal
`image_order` is whatever the store hands back — the image query has no
secondary sort key — and is not required to follow creation time. -/
theorem C7_image_order_sorted (fp : ℚ → ℚ → Nat → Option Nat)
    (table : List MarkerImage) (fails : Int → Bool)
    (ms : List MarkerClusterInfo) (d1 d2 : ℚ) (out : List ClusterOut)
    (hout : getMarkersCluster fp
        (unwrapOrDefault (imageStore table fails)) ms d1 d2
      = some out) :
    ∀ c ∈ out, ∀ mo ∈ c.markers,
      mo.images.Pairwise
        (fun a b : MarkerImage => a.image_order ≤ b.image_order) := by
  intro c hc mo hmo
  obtain ⟨m, hm, rfl⟩ := engine_markers_shape fp
    (unwrapOrDefault (imageStore table fails)) ms d1 d2 out hout
    c hc mo hmo
  show (unwrapOrDefault (imageStore table fails) m.id).Pairwise _
  cases hfm : fails m.id with
  | true =>
    rw [unwrap_imageStore_fails table fails m.id hfm]
    simp
  | false =>
    rw [unwrap_imageStore_ok table fails m.id hfm]
    exact listImagesQuery_sorted table m.id

/-- C7 witness: image ordering of the one returned marker of a concrete
request with a two-image table. -/
theorem C7_witness :
    (markerOut (unwrapOrDefault (imageStore [cexImgX, cexImgY]
        (fun _ => false))) cexMarkerM).images.Pairwise
      (fun a b : MarkerImage => a.image_order ≤ b.image_order) := by
  refine C7_image_order_sorted constCell [cexImgX, cexImgY]
    (fun _ => false) [cexMarkerM] (1/200) (1/200)
    (singletonClusters
      (unwrapOrDefault (imageStore [cexImgX, cexImgY] (fun _ => false)))
      [cexMarkerM])
    (engine_ungrouped_eq constCell
      (unwrapOrDefault (imageStore [cexImgX, cexImgY] (fun _ => false)))
      [cexMarkerM] (1/200) (1/200)
      (Or.inr ⟨by norm_num, by norm_num⟩))
    _ (List.mem_map_of_mem _ (List.mem_singleton.mpr rfl))
    _ (List.mem_singleton.mpr rfl)

/-- C7 counterexample: marker 1 carries two images both with
`image_order` 1, created at times 5 and 3 and stored physically in that
order; the response returns them as (order 1, created 5) before
(order 1, created 3), so images tying on `image_order` are not ordered
by creation time. -/
theorem C7_counterexample :
    ((getMarkersCluster constCell
        (unwrapOrDefault (imageStore [cexImgX, cexImgY]
          (fun _ => false)))
        [cexMarkerM] (1/200) (1/200)).getD []).map
      (fun c => c.markers.map
        (fun mo => mo.images.map
          (fun i => (i.image_order, i.created_at))))
      = [[[(1, 5), (1, 3)]]] := by
  rw [engine_ungrouped_eq constCell
    (unwrapOrDefault (imageStore [cexImgX, cexImgY] (fun _ => false)))
    [cexMarkerM] (1/200) (1/200)
    (Or.inr ⟨by norm_num, by norm_num⟩)]
  have himg : unwrapOrDefault
      (imageStore [cexImgX, cexImgY] (fun _ => false)) cexMarkerM.id
      = [cexImgX, cexImgY] := by
    rw [unwrap_imageStore_ok [cexImgX, cexImgY] (fun _ => false)
      cexMarkerM.id rfl]
    unfold listImagesQuery
    have hfil : [cexImgX, cexImgY].filter
        (fun img => img.marker_id == cexMarkerM.id)
        = [cexImgX, cexImgY] := by
      simp [cexImgX, cexImgY, cexMarkerM, mkImage, mkMarker]
    rw [hfil]
    apply List.mergeSort_of_sorted
    simp [cexImgX, cexImgY, mkImage]
  simp only [Option.getD_some, singletonClusters, List.map_cons,
    List.map_nil, markerOut, himg]
  simp [cexImgX, cexImgY, mkImage]

/-- C4 (amended): the cluster query builder always emits
`ORDER BY created_at DESC` — the requested `sort_by`/`sort_order`
parameters are ignored — so within every returned cluster the markers
are ordered by `createdAt` descending, whatever sort the caller
requested. -/
theorem C4_sort_ignored (fp : ℚ → ℚ → Nat → Option Nat)
    (fetch : Int → List MarkerImage) (table : List MarkerClusterInfo)
    (sb so : Option String) (d1 d2 : ℚ) (out : List ClusterOut)
    (hout : getMarkersCluster fp fetch (markersQueryRows table sb so)
        d1 d2 = some out) :
    (∀ c ∈ out, c.markers.Pairwise
        (fun a b : MarkerOut => b.createdAt ≤ a.createdAt))
    ∧ markersQueryRows table sb so = markersQueryRows table none none
    ∧ clusterOrderBy sb so = "created_at DESC" := by
  refine ⟨?_, rfl, rfl⟩
  exact engine_cluster_pairwise
    (fun a b => b.created_at ≤ a.created_at)
    (fun a b => b.createdAt ≤ a.createdAt)
    fetch (fun a b h => h) fp (markersQueryRows table sb so) d1 d2 out
    (markersQueryRows_sorted table sb so) hout

/-- C4 witness: the amended statement at a concrete request asking for
`sort_by=likes, sort_order=asc`. -/
theorem C4_sort_ignored_witness :
    (∀ c ∈ singletonClusters noImages
        (markersQueryRows [] (some "likes") (some "asc")),
      c.markers.Pairwise
        (fun a b : MarkerOut => b.createdAt ≤ a.createdAt))
    ∧ markersQueryRows [] (some "likes") (some "asc")
        = markersQueryRows [] none none
    ∧ clusterOrderBy (some "likes") (some "asc")
        = "created_at DESC" :=
  C4_sort_ignored constCell noImages [] (some "likes") (some "asc")
    (1/200) (1/200)
    (singletonClusters noImages
      (markersQueryRows [] (some "likes") (some "asc")))
    (engine_ungrouped_eq constCell noImages
      (markersQueryRows [] (some "likes") (some "asc"))
      (1/200) (1/200) (Or.inr ⟨by norm_num, by norm_num⟩))

/-- C4 counterexample: with `sort_by=likes, sort_order=asc`, the two
markers of the single returned cluster come back as (id 1, likes 5)
before (id 2, likes 3) — the store's fixed `created_at DESC` row
order — not in the requested ascending-likes order, so the markers
list does not follow the caller's requested sort. -/
theorem C4_counterexample :
    ((getMarkersCluster constCell noImages
        (markersQueryRows [cexMarkerA, cexMarkerB]
          (some "likes") (some "asc")) 1 1).getD []).map
      (fun c => c.markers.map (fun mo => (mo.id, mo.likes)))
      = [[(1, 5), (2, 3)]] := by
  have hrows : markersQueryRows [cexMarkerA, cexMarkerB]
      (some "likes") (some "asc") = [cexMarkerA, cexMarkerB] := by
    unfold markersQueryRows
    apply List.mergeSort_of_sorted
    simp [cexMarkerA, cexMarkerB, mkMarker]
  rw [hrows]
  have hcond : ¬(9 ≤ precision 1 1
      ∨ ((1 : ℚ) < 1/100 ∧ (1 : ℚ) < 1/100)) := by
    have h4 : precision 1 1 = 4 := by norm_num [precision]
    rw [h4]
    norm_num
  have hk : assignCells constCell (precision 1 1)
      [cexMarkerA, cexMarkerB]
      = some [(cexMarkerA, 0), (cexMarkerB, 0)] := rfl
  rw [engine_grouped_eq constCell noImages [cexMarkerA, cexMarkerB] 1 1
    [(cexMarkerA, 0), (cexMarkerB, 0)] hcond hk]
  simp only [Option.getD_some, groupedClusters]
  simp [buildCluster, markerOut, cexMarkerA, cexMarkerB, mkMarker]

/-- C9: for a fixed marker set, growing both viewport spans never
increases the number of returned clusters, given the spec's nesting
property of the hierarchical cell scheme: for a coarser resolution the
cell of a point is a function of its cell at any finer resolution. -/
theorem C9_cluster_monotone (fp : ℚ → ℚ → Nat → Option Nat)
    (fetch : Int → List MarkerImage) (ms : List MarkerClusterInfo)
    (d1 d2 e1 e2 : ℚ) (out outE : List ClusterOut)
    (h1 : d1 ≤ e1) (h2 : d2 ≤ e2)
    (hnest : ∀ r r' : Nat, r' ≤ r → ∃ f : Nat → Nat,
      ∀ lng lat c, fp lng lat r = some c → fp lng lat r' = some (f c))
    (hout : getMarkersCluster fp fetch ms d1 d2 = some out)
    (houtE : getMarkersCluster fp fetch ms e1 e2 = some outE) :
    outE.length ≤ out.length := by
  rcases engine_cases fp fetch ms d1 d2 out hout with
    ⟨hcond, rfl⟩ | ⟨keyed, hcond, hk, rfl⟩
  · rw [singletonClusters_length]
    rcases engine_cases fp fetch ms e1 e2 outE houtE with
      ⟨hcondE, rfl⟩ | ⟨keyedE, hcondE, hkE, rfl⟩
    · rw [singletonClusters_length]
    · rw [groupedClusters_length]
      calc ((keyedE.map Prod.snd).dedup).length
          ≤ (keyedE.map Prod.snd).length :=
            (List.dedup_sublist _).length_le
        _ = keyedE.length := List.length_map _ _
        _ = ms.length := assignCells_length fp _ hkE
  · have hcondE : ¬(9 ≤ precision e1 e2
        ∨ (e1 < 1/100 ∧ e2 < 1/100)) := by
      intro hE
      exact hcond (ungrouped_cond_antitone h1 h2 hE)
    have hple : precision e1 e2 ≤ precision d1 d2 := by
      rw [precision_eq_spec d1 d2, precision_eq_spec e1 e2]
      exact specPrecision_antitone (max_le_max h1 h2)
    obtain ⟨f, hf⟩ := hnest (precision d1 d2) (precision e1 e2) hple
    have hkE : assignCells fp (precision e1 e2) ms
        = some (keyed.map (fun mk => (mk.1, f mk.2))) :=
      assignCells_map_res fp f hf hk
    have hE := engine_grouped_eq fp fetch ms e1 e2
      (keyed.map (fun mk => (mk.1, f mk.2))) hcondE hkE
    rw [houtE] at hE
    rw [Option.some.inj hE]
    rw [groupedClusters_length, groupedClusters_length]
    have hsnd : (keyed.map (fun mk => (mk.1, f mk.2))).map Prod.snd
        = (keyed.map Prod.snd).map f := by
      rw [List.map_map, List.map_map]
      rfl
    rw [hsnd]
    exact dedup_length_map_le f (keyed.map Prod.snd)

/-- C9 witness: the monotonicity theorem applied to a concrete pair of
viewports (0.005 degrees vs 1 degree) over an empty marker set with the
trivially nested constant scheme. -/
theorem C9_witness :
    (groupedClusters noImages
        ([] : List (MarkerClusterInfo × Nat))).length
      ≤ (singletonClusters noImages
        ([] : List MarkerClusterInfo)).length := by
  have hcond : ¬(9 ≤ precision 1 1
      ∨ ((1 : ℚ) < 1/100 ∧ (1 : ℚ) < 1/100)) := by
    have h4 : precision 1 1 = 4 := by norm_num [precision]
    rw [h4]
    norm_num
  exact C9_cluster_monotone constCell noImages [] (1/200) (1/200) 1 1
    (singletonClusters noImages []) (groupedClusters noImages [])
    (by norm_num) (by norm_num)
    (fun r r' _ => ⟨fun _ => 0, fun lng lat c _ => rfl⟩)
    (engine_ungrouped_eq constCell noImages [] (1/200) (1/200)
      (Or.inr ⟨by norm_num, by norm_num⟩))
    (engine_grouped_eq constCell noImages [] 1 1 [] hcond rfl)

/-- C10: grouped mode only ever selects resolution 3, 4, 5 or 8, and
under the H3 contract — point-to-cell conversion succeeds for in-range
coordinates at any resolution up to 15 — cell assignment succeeds for
every marker, so the `unwrap` at cell assignment is unreachable and the
whole request succeeds. -/
theorem C10_cell_assignment_total (fp : ℚ → ℚ → Nat → Option Nat)
    (fetch : Int → List MarkerImage) (ms : List MarkerClusterInfo)
    (d1 d2 : ℚ)
    (hfp : ∀ (lng lat : ℚ) (r : Nat), r ≤ 15 →
      -90 ≤ lat → lat ≤ 90 → -180 ≤ lng → lng ≤ 180 →
        (fp lng lat r).isSome)
    (hms : ∀ m ∈ ms, -90 ≤ m.latitude ∧ m.latitude ≤ 90
        ∧ -180 ≤ m.longitude ∧ m.longitude ≤ 180) :
    (¬(9 ≤ precision d1 d2 ∨ (d1 < 1/100 ∧ d2 < 1/100)) →
        precision d1 d2 ∈ ([3, 4, 5, 8] : List Nat))
    ∧ (getMarkersCluster fp fetch ms d1 d2).isSome := by
  constructor
  · intro h
    have hmem := precision_mem d1 d2
    have h9 : precision d1 d2 ≠ 9 := by
      intro h9
      exact h (Or.inl (by rw [h9]))
    simp only [List.mem_cons, List.not_mem_nil, or_false] at hmem
    rcases hmem with h' | h' | h' | h' | h'
    · simp [h']
    · simp [h']
    · simp [h']
    · simp [h']
    · exact absurd h' h9
  · by_cases h : 9 ≤ precision d1 d2 ∨ (d1 < 1/100 ∧ d2 < 1/100)
    · rw [engine_ungrouped_eq fp fetch ms d1 d2 h]
      rfl
    · have hsome : (assignCells fp (precision d1 d2) ms).isSome := by
        apply assignCells_isSome
        intro m hm
        obtain ⟨ha, hb, hc, hd⟩ := hms m hm
        exact hfp m.longitude m.latitude (precision d1 d2)
          (le_trans (precision_le_nine d1 d2) (by norm_num)) ha hb hc hd
      obtain ⟨keyed, hk⟩ := Option.isSome_iff_exists.mp hsome
      rw [engine_grouped_eq fp fetch ms d1 d2 keyed h hk]
      rfl

/-- C10 witness: the theorem applied to one in-range marker and the
everywhere-defined constant cell scheme. -/
theorem C10_witness :
    (¬(9 ≤ precision (1/200) (1/200)
        ∨ ((1 : ℚ)/200 < 1/100 ∧ (1 : ℚ)/200 < 1/100)) →
      precision (1/200) (1/200) ∈ ([3, 4, 5, 8] : List Nat))
    ∧ (getMarkersCluster constCell noImages [cexMarkerM]
        (1/200) (1/200)).isSome :=
  C10_cell_assignment_total constCell noImages [cexMarkerM]
    (1/200) (1/200)
    (fun _ _ _ _ _ _ _ _ => rfl)
    (by
      intro m hm
      rw [List.mem_singleton] at hm
      subst hm
      refine ⟨by norm_num [cexMarkerM, mkMarker],
        by norm_num [cexMarkerM, mkMarker],
        by norm_num [cexMarkerM, mkMarker],
        by norm_num [cexMarkerM, mkMarker]⟩)
